import Mathlib

/-!
Verification of the jradianceco-ecommerce repository.

Shallow embedding of the middleware route guard (`src/middleware.ts`), the
admin server actions (`checkPermission`, `promoteUser`, `demoteUser`,
`getSalesStats`), the FTP upload helper (`uploadFileToFTP`,
`deleteFileFromFTP`, `getFTPConfig`), and the `CartOverlay` total-price
computation. External effects (Supabase auth/database, FTP transport,
`Date.now`, `Math.random`, `process.env`) are passed in explicitly as
environment records; database tables are association lists / row lists.
-/

namespace JRadiance

/- ===========================
   JavaScript string helpers
   =========================== -/

/-- `String.prototype.startsWith`, expressed on the character lists. -/
def strStartsWith (s pre : String) : Bool :=
  pre.data.isPrefixOf s.data

/-- Auxiliary loop for `jsSplitChar`: walks the characters, collecting the
current segment (in reverse) and cutting at each separator. -/
def splitOnCharAux (sep : Char) : List Char → List Char → List String
  | [], acc => [String.mk acc.reverse]
  | c :: rest, acc =>
    if c = sep then String.mk acc.reverse :: splitOnCharAux sep rest []
    else splitOnCharAux sep rest (c :: acc)

/-- `String.prototype.split` for a single-character separator, as used by
`file.name.split(".")` and `directory.split("/")` in the source. Like the
JavaScript original it never returns an empty array: splitting the empty
string yields `[""]`. -/
def jsSplitChar (s : String) (sep : Char) : List String :=
  splitOnCharAux sep s.data []

/-- `baseUrl.replace(/\/$/, "")` from `getFTPConfig`: drop one trailing
slash if present. -/
def stripTrailingSlash (s : String) : String :=
  match s.data.getLast? with
  | some c => if c = '/' then String.mk s.data.dropLast else s
  | none => s

/-- `s.substring(a, b)` for `a ≤ b`: the characters from index `a` up to
(but excluding) index `b`, clamped to the string length. -/
def jsSubstring (s : String) (a b : Nat) : String :=
  String.mk ((s.data.drop a).take (b - a))

/-- `file.name.split(".").pop() || "file"` from `uploadFileToFTP`: the last
dot-separated segment of the name, or `"file"` when that segment is empty
(the `pop` of a JavaScript `split` result is never `undefined`, so the
`|| "file"` fallback fires exactly on the empty segment). -/
def jsFileExt (name : String) : String :=
  let e := (jsSplitChar name '.').getLastD ""
  if e = "" then "file" else e

/-- `parseInt(s, 10)` restricted to the leading-digits case: parse the
longest digit run at the front of the string; `none` models `NaN`. -/
def jsParseInt (s : String) : Option Nat :=
  let digits := s.data.takeWhile Char.isDigit
  if digits.isEmpty then none
  else some (digits.foldl (fun acc c => acc * 10 + (c.toNat - 48)) 0)

/-- `a || b` on an optional numeric value, JavaScript truthiness: `none`
(undefined/null) and `0` both fall through to `b`. -/
def jsNumOr (a : Option Int) (b : Int) : Int :=
  match a with
  | some v => if v ≠ 0 then v else b
  | none => b

/-- `a || d` on an optional string, JavaScript truthiness: `none` and the
empty string both fall through to `d`. -/
def jsStrOr (a : Option String) (d : String) : String :=
  match a with
  | some s => if s = "" then d else s
  | none => d

/- ===========================
   Middleware (src/middleware.ts)
   =========================== -/

/-- Outcome of the middleware for one request: pass the request through, or
redirect to one of the four targets appearing in the source.
`redirectShopAuth p` is the redirect to `/shop/auth` carrying
`?redirect=p` (the source sets the `redirect` search parameter to
`url.pathname`). -/
inductive MwResult where
  | next
  | redirectAdminLogin
  | redirectHome
  | redirectAdminDashboard
  | redirectShopAuth (redirectParam : String)
deriving DecidableEq

/-- The `adminRoutes` list from the source (declared there but never read
by the middleware logic). -/
def adminRoutes : List String :=
  ["/admin/dashboard", "/admin/roles", "/admin/users", "/admin/agents",
   "/admin/sales-log", "/admin/audit-log", "/admin/catalog", "/admin/issues",
   "/admin/orders"]

/-- `allowedRoles` from the source. -/
def allowedRoles : List String := ["admin", "agent", "chief_admin"]

/-- `chiefAdminOnlyRoutes` from the source. -/
def chiefAdminOnlyRoutes : List String :=
  ["/admin/users", "/admin/roles", "/admin/agents"]

/-- `agentRestrictedRoutes` from the source. -/
def agentRestrictedRoutes : List String :=
  ["/admin/audit-log", "/admin/sales-log"]

/-- `protectedCustomerRoutes` from the source. -/
def protectedCustomerRoutes : List String :=
  ["/shop/history", "/shop/wishlist", "/shop/checkout"]

/-- The customer-routes block at the end of `middleware`, reached whenever
the admin block does not return early. -/
def customerRoutesCheck (pathname : String) (user : Option String) : MwResult :=
  if ∃ p ∈ protectedCustomerRoutes, strStartsWith pathname p = true then
    match user with
    | none => MwResult.redirectShopAuth pathname
    | some _ => MwResult.next
  else MwResult.next

/-- The routing decision of `middleware(req)`. `pathname` is
`req.nextUrl.pathname`, `user` the result of `supabase.auth.getUser()`, and
`profileRole` the `role` column of the `profiles` row keyed by user id (as
a raw string, `none` when the row or the column is missing). The
`admin_activity_logs` insert has no effect on the returned response (its
failure is swallowed) and is not modelled. -/
def middleware (pathname : String) (user : Option String)
    (profileRole : String → Option String) : MwResult :=
  if strStartsWith pathname "/admin" = true ∧ pathname ≠ "/admin/login" then
    match user with
    | none => MwResult.redirectAdminLogin
    | some uid =>
      match profileRole uid with
      | none => MwResult.redirectHome
      | some role =>
        if role ∉ allowedRoles then MwResult.redirectHome
        else if (∃ r ∈ chiefAdminOnlyRoutes, strStartsWith pathname r = true) ∧
            role ≠ "chief_admin" then
          MwResult.redirectAdminDashboard
        else if (∃ r ∈ agentRestrictedRoutes, strStartsWith pathname r = true) ∧
            role = "agent" then
          MwResult.redirectAdminDashboard
        else customerRoutesCheck pathname (some uid)
  else customerRoutesCheck pathname user

/- ===========================
   Admin actions (src/app/actions/admin.ts)
   =========================== -/

/-- The `UserRole` union type. -/
inductive Role where
  | customer
  | agent
  | admin
  | chief_admin
deriving DecidableEq

/-- The `roleHierarchy` lookup table in `checkPermission`. -/
def roleValue : Role → Nat
  | Role.customer => 0
  | Role.agent => 1
  | Role.admin => 2
  | Role.chief_admin => 3

/-- String rendering of a role, for interpolated messages such as
`` `User promoted to ${newRole}` ``. -/
def roleName : Role → String
  | Role.customer => "customer"
  | Role.agent => "agent"
  | Role.admin => "admin"
  | Role.chief_admin => "chief_admin"

/-- An `admin_staff` row (the columns written by `promoteUser`). -/
structure StaffRow where
  id : String
  profile_id : String
  staff_id : String
  department : String
  position : String
  is_active : Bool
deriving DecidableEq

/-- An `admin_activity_logs` row; `changes` holds the JSON payload as
key/value pairs. -/
structure LogRow where
  admin_id : String
  action : String
  resource_type : String
  resource_id : Option String
  changes : List (String × Option String) := []
deriving DecidableEq

/-- The database state the admin actions touch: the `role` column of
`profiles` (an association list keyed by user id), the `admin_staff` rows,
and the `admin_activity_logs` rows. -/
structure DB where
  profiles : List (String × Role)
  adminStaff : List StaffRow
  logs : List LogRow
deriving DecidableEq

/-- `select role from profiles where id = uid` (`.single()`): `none` when
the row is missing. -/
def lookupRole (db : DB) (uid : String) : Option Role :=
  db.profiles.lookup uid

/-- `update profiles set role = r where id = uid`: rewrites the matching
rows, leaves the rest alone (and does nothing when no row matches). -/
def updateRole (profiles : List (String × Role)) (uid : String) (r : Role) :
    List (String × Role) :=
  profiles.map (fun p => if p.1 = uid then (p.1, r) else p)

/-- `delete from admin_staff where id = uid`. -/
def deleteStaff (staff : List StaffRow) (uid : String) : List StaffRow :=
  staff.filter (fun row => !(row.id == uid))

/-- A Postgres error as surfaced by the Supabase client (`code` such as
`"23505"`, plus a message). -/
structure DbError where
  code : String
  message : String
deriving DecidableEq

/-- `insert into admin_staff`: an injected fault (modelling any
non-duplicate failure) is returned as-is; otherwise the unique constraint
on `id` rejects a second row for the same key with code `23505`, and a
fresh key is appended. -/
def insertAdminStaff (staff : List StaffRow) (row : StaffRow)
    (fault : Option DbError) : List StaffRow × Option DbError :=
  match fault with
  | some e => (staff, some e)
  | none =>
    if staff.any (fun r => r.id == row.id) then
      (staff, some { code := "23505",
                     message := "duplicate key value violates unique constraint" })
    else (staff ++ [row], none)

/-- Number of `admin_staff` rows for a given user id. -/
def staffCountFor (staff : List StaffRow) (uid : String) : Nat :=
  (staff.filter (fun r => r.id == uid)).length

/-- The `{ success, error?, message? }` shape returned by the admin
actions. -/
structure ActionResult where
  success : Bool
  error : Option String := none
  message : Option String := none
deriving DecidableEq

/-- Environment of one admin-action invocation: the authenticated user (if
any), an injected failure for the `profiles` update (the thrown error's
message), an injected non-duplicate failure for the `admin_staff` insert,
and `Date.now()`. -/
structure ActionEnv where
  authUser : Option String
  profileUpdateFault : Option String := none
  staffInsertFault : Option DbError := none
  now : Nat := 0
deriving DecidableEq

/-- `checkPermission(requiredRole)`: false without an authenticated user or
a `profiles` row, otherwise the `roleHierarchy` comparison. -/
def checkPermission (env : ActionEnv) (db : DB) (requiredRole : Role) : Bool :=
  match env.authUser with
  | none => false
  | some uid =>
    match lookupRole db uid with
    | none => false
    | some role => decide (roleValue requiredRole ≤ roleValue role)

/-- The `admin_staff` row built by `promoteUser` for a non-customer role. -/
def mkStaffRow (targetUserId : String) (newRole : Role) (now : Nat) : StaffRow :=
  { id := targetUserId
    profile_id := targetUserId
    staff_id := "STAFF-" ++ toString now
    department := "Team"
    position := if newRole = Role.agent then "Support Agent" else "Administrator"
    is_active := true }

/-- Tail of `promoteUser` shared by its non-throwing paths: append the
`user_promoted` activity-log row and return success. -/
def finishPromote (db : DB) (currentUser targetUserId : String) (newRole : Role) :
    ActionResult × DB :=
  ({ success := true, message := some ("User promoted to " ++ roleName newRole) },
   { db with logs := db.logs ++
       [{ admin_id := currentUser, action := "user_promoted",
          resource_type := "user", resource_id := some targetUserId,
          changes := [("new_role", some (roleName newRole))] }] })

/-- `promoteUser(targetUserId, newRole)`: authenticate, require
`chief_admin`, update the target's role, insert the `admin_staff` row when
the new role is not `customer` (rethrowing any insert error whose code is
not `23505`), log, and report success. Thrown errors are caught and turned
into `{ success := false, error := message }`, with the database left as
mutated so far. -/
def promoteUser (env : ActionEnv) (db : DB) (targetUserId : String)
    (newRole : Role) : ActionResult × DB :=
  match env.authUser with
  | none => ({ success := false, error := some "Not authenticated" }, db)
  | some currentUser =>
    if lookupRole db currentUser ≠ some Role.chief_admin then
      ({ success := false, error := some "Only chief admin can promote users" }, db)
    else
      match env.profileUpdateFault with
      | some msg => ({ success := false, error := some msg }, db)
      | none =>
        let db1 : DB := { db with profiles := updateRole db.profiles targetUserId newRole }
        if newRole ≠ Role.customer then
          let ins := insertAdminStaff db1.adminStaff
            (mkStaffRow targetUserId newRole env.now) env.staffInsertFault
          let db2 : DB := { db1 with adminStaff := ins.1 }
          match ins.2 with
          | some e =>
            if e.code ≠ "23505" then
              ({ success := false, error := some e.message }, db2)
            else finishPromote db2 currentUser targetUserId newRole
          | none => finishPromote db2 currentUser targetUserId newRole
        else finishPromote db1 currentUser targetUserId newRole

/-- `demoteUser(targetUserId)`: authenticate, require `chief_admin`, read
the target's old role, set the role to `customer`, delete the `admin_staff`
row, log, and report success. -/
def demoteUser (env : ActionEnv) (db : DB) (targetUserId : String) :
    ActionResult × DB :=
  match env.authUser with
  | none => ({ success := false, error := some "Not authenticated" }, db)
  | some currentUser =>
    if lookupRole db currentUser ≠ some Role.chief_admin then
      ({ success := false, error := some "Only chief admin can demote users" }, db)
    else
      match env.profileUpdateFault with
      | some msg => ({ success := false, error := some msg }, db)
      | none =>
        let oldRole := lookupRole db targetUserId
        let db1 : DB := { db with profiles := updateRole db.profiles targetUserId Role.customer }
        let db2 : DB := { db1 with adminStaff := deleteStaff db1.adminStaff targetUserId }
        let db3 : DB := { db2 with logs := db2.logs ++
          [{ admin_id := currentUser, action := "user_demoted",
             resource_type := "user", resource_id := some targetUserId,
             changes := [("old_role", oldRole.map roleName),
                         ("new_role", some "customer")] }] }
        ({ success := true, message := some "User demoted to customer" }, db3)

/-- The `FTPConfig` record built by `getFTPConfig`; `port` is the
`parseInt` result (`none` models `NaN`). -/
structure FTPConfig where
  host : String
  port : Option Nat
  user : String
  password : String
  baseUrl : String
deriving DecidableEq

/-- Environment of one FTP-helper invocation: the five
`NAMECHEAP_FTP_*` variables from `process.env`, injected faults for the
connect / `put` / `delete` calls (the error message when the call rejects),
the remote directory-existence oracle and an injected `mkdir` fault for
`ensureDirectoryExists`, plus `Date.now()` and the string
`Math.random().toString(36)`. -/
structure FTPEnv where
  hostVar : Option String := none
  portVar : Option String := none
  userVar : Option String := none
  passwordVar : Option String := none
  baseUrlVar : Option String := none
  connectFault : Option String := none
  putFault : Option String := none
  deleteFault : Option String := none
  dirExists : String → Bool := fun _ => false
  mkdirFault : String → Option String := fun _ => none
  timestamp : Nat := 0
  randomRepr : String := ""

/-- `getFTPConfig()`: `none` (with a console warning) when `host`, `user`,
`password` or `baseUrl` is missing or empty, otherwise the record with the
port parsed from `port || "21"` and the base URL stripped of a trailing
slash. -/
def getFTPConfig (env : FTPEnv) : Option FTPConfig :=
  match env.hostVar, env.userVar, env.passwordVar, env.baseUrlVar with
  | some h, some u, some pw, some b =>
    if h = "" ∨ u = "" ∨ pw = "" ∨ b = "" then none
    else some { host := h
                port := jsParseInt (jsStrOr env.portVar "21")
                user := u
                password := pw
                baseUrl := stripTrailingSlash b }
  | _, _, _, _ => none

/-- Observable FTP-client operations, for reasoning about the connection
lifecycle: `ended` is the `client.end()` call in the `finally` blocks. -/
inductive FTPEvent where
  | connected
  | cwdOk (path : String)
  | mkdirDone (path : String)
  | putDone (path : String)
  | deleteDone (path : String)
  | ended
deriving DecidableEq

/-- The recovery loop of `ensureDirectoryExists`: walk the path segments,
`cwd` into each cumulative path and `mkdir` it when `cwd` fails; a `mkdir`
rejection aborts the loop (the surrounding catch swallows it). -/
def ensureDirLoop (env : FTPEnv) : List String → String → List FTPEvent
  | [], _ => []
  | part :: rest, currentPath =>
    let nextPath := currentPath ++ "/" ++ part
    if env.dirExists nextPath then
      FTPEvent.cwdOk nextPath :: ensureDirLoop env rest nextPath
    else
      match env.mkdirFault nextPath with
      | some _ => []
      | none => FTPEvent.mkdirDone nextPath :: ensureDirLoop env rest nextPath

/-- `ensureDirectoryExists(client, directory)`: probe the directory with
`cwd`; on failure, create it segment by segment. Never throws. Returns the
trace of client operations. -/
def ensureDirectoryExists (env : FTPEnv) (directory : String) : List FTPEvent :=
  if env.dirExists directory then [FTPEvent.cwdOk directory]
  else ensureDirLoop env ((jsSplitChar directory '/').filter (fun s => s != "")) ""

/-- The `UploadResult` shape. -/
structure UploadResult where
  success : Bool
  url : Option String := none
  error : Option String := none
  filename : Option String := none
deriving DecidableEq

/-- `uploadFileToFTP(file, folder)`: returns the result together with the
trace of FTP-client operations. `fileName` is `file.name`; the file's bytes
do not influence the result and are not modelled. When the connect fails
the client variable is still `null`, so the `finally` block does not call
`end()`; on every path after a successful connect it does. -/
def uploadFileToFTP (env : FTPEnv) (fileName folder : String) :
    UploadResult × List FTPEvent :=
  match getFTPConfig env with
  | none =>
    ({ success := false,
       error := some "FTP configuration is missing. Please check environment variables." },
     [])
  | some config =>
    let timestamp := env.timestamp
    let randomString := jsSubstring env.randomRepr 2 8
    let fileExtension := jsFileExt fileName
    let filename := toString timestamp ++ "-" ++ randomString ++ "." ++ fileExtension
    let remotePath := "/" ++ folder ++ "/" ++ filename
    match env.connectFault with
    | some msg => ({ success := false, error := some msg }, [])
    | none =>
      let dirEvents := ensureDirectoryExists env folder
      match env.putFault with
      | some msg =>
        ({ success := false, error := some msg },
         FTPEvent.connected :: dirEvents ++ [FTPEvent.ended])
      | none =>
        let publicUrl := config.baseUrl ++ "/" ++ folder ++ "/" ++ filename
        ({ success := true, url := some publicUrl, filename := some filename },
         FTPEvent.connected :: dirEvents ++ [FTPEvent.putDone remotePath, FTPEvent.ended])

/-- `deleteFileFromFTP(filename, folder)`, with the trace of FTP-client
operations. -/
def deleteFileFromFTP (env : FTPEnv) (filename folder : String) :
    UploadResult × List FTPEvent :=
  match getFTPConfig env with
  | none => ({ success := false, error := some "FTP configuration is missing." }, [])
  | some _ =>
    match env.connectFault with
    | some msg => ({ success := false, error := some msg }, [])
    | none =>
      let remotePath := "/" ++ folder ++ "/" ++ filename
      match env.deleteFault with
      | some msg =>
        ({ success := false, error := some msg }, [FTPEvent.connected, FTPEvent.ended])
      | none =>
        ({ success := true },
         [FTPEvent.connected, FTPEvent.deleteDone remotePath, FTPEvent.ended])

/-- One step of the connection-state fold: `connected` opens, `ended`
closes, everything else leaves the state alone. -/
def connStep (acc : Bool) (e : FTPEvent) : Bool :=
  match e with
  | FTPEvent.connected => true
  | FTPEvent.ended => false
  | _ => acc

/-- Whether the FTP connection is still open after a trace of client
operations. -/
def connOpenAfter (events : List FTPEvent) : Bool :=
  events.foldl connStep false

/-- An `orders` row (the columns `getSalesStats` selects, plus the
`payment_status` it filters on). `created_at` is a timestamp in
milliseconds. -/
structure OrderRow where
  total_amount : Int
  status : String
  payment_status : String
  created_at : Nat
deriving DecidableEq

/-- The `period` parameter of `getSalesStats`. -/
inductive Period where
  | day
  | week
  | month
  | all
deriving DecidableEq

/-- Environment of a `getSalesStats` call: `Date.now()` in milliseconds,
the `Date#toISOString` rendering and the calendar month-subtraction of the
`Date` library (both opaque to the repository and modelled as supplied
functions), and an injected failure for the orders query. -/
structure StatsEnv where
  nowMs : Nat := 0
  isoOf : Nat → String := fun _ => ""
  monthAgoMs : Nat → Nat := fun n => n
  queryFault : Option String := none

/-- The `data` payload of a successful `getSalesStats`. -/
structure SalesData where
  totalRevenue : Int
  totalOrders : Nat
  completedOrders : Nat
  orders : List OrderRow
deriving DecidableEq

/-- The `{ success, data?, error? }` shape returned by `getSalesStats`. -/
structure StatsResult where
  success : Bool
  data : Option SalesData := none
  error : Option String := none
deriving DecidableEq

/-- The `dateFilter` string computed at the top of `getSalesStats`
(`created_at >= '<ISO date>'`, empty for `"all"`). 86400000 is one day in
milliseconds. -/
def computeDateFilter (env : StatsEnv) (period : Period) : String :=
  match period with
  | Period.all => ""
  | Period.day => "created_at >= '" ++ env.isoOf (env.nowMs - 86400000) ++ "'"
  | Period.week => "created_at >= '" ++ env.isoOf (env.nowMs - 7 * 86400000) ++ "'"
  | Period.month => "created_at >= '" ++ env.isoOf (env.monthAgoMs env.nowMs) ++ "'"

/-- `getSalesStats(period)`: computes `dateFilter` and then runs the orders
query, which — exactly as in the source — filters only on
`payment_status = "completed"` and never references `dateFilter`. -/
def getSalesStats (env : StatsEnv) (dbOrders : List OrderRow) (period : Period) :
    StatsResult :=
  let dateFilter := computeDateFilter env period
  match env.queryFault with
  | some _ => { success := false, error := some "Failed to fetch sales statistics" }
  | none =>
    let orders := dbOrders.filter (fun o => o.payment_status == "completed")
    let totalRevenue := orders.foldl (fun sum o => sum + o.total_amount) 0
    let totalOrders := orders.length
    let completedOrders := (orders.filter (fun o => o.status == "delivered")).length
    { success := true
      data := some { totalRevenue := totalRevenue, totalOrders := totalOrders,
                     completedOrders := completedOrders, orders := orders } }

/- ===========================
   CartOverlay (src/components/CartOverlay.tsx)
   =========================== -/

/-- A product as seen by the cart (the fields `CartOverlay` reads). -/
structure Product where
  name : String
  price : Int
  discount_price : Option Int
  images : List String
deriving DecidableEq

/-- One cart item; `product` is `none` when the joined product row is
missing. -/
structure CartItem where
  id : String
  product_id : String
  quantity : Int
  product : Option Product
deriving DecidableEq

/-- `item.product?.discount_price || item.product?.price || 0` from the
`totalPrice` reducer in `CartOverlay`. -/
def cartItemPrice (item : CartItem) : Int :=
  jsNumOr (item.product.bind Product.discount_price)
    (jsNumOr (item.product.map Product.price) 0)

/-- The `totalPrice` computation of `CartOverlay`:
`cart.reduce((acc, item) => acc + price * item.quantity, 0)`. -/
def cartTotalPrice (cart : List CartItem) : Int :=
  cart.foldl (fun acc item => acc + cartItemPrice item * item.quantity) 0

/-- The per-item effective price as the claim words it: the discount price
if it is set and non-zero, otherwise the price, otherwise 0 (no product). -/
def claimedItemPrice (item : CartItem) : Int :=
  match item.product with
  | none => 0
  | some p =>
    match p.discount_price with
    | some d => if d ≠ 0 then d else p.price
    | none => p.price

theorem strStartsWith_eq_true {s p : String} :
    strStartsWith s p = true ↔ p.data <+: s.data := by
  simp [strStartsWith, List.isPrefixOf_iff_prefix]

theorem startsWith_mono {s p q : String}
    (h : strStartsWith s q = true) (hpq : p.data.isPrefixOf q.data = true) :
    strStartsWith s p = true := by
  rw [strStartsWith_eq_true] at h ⊢
  exact ( List.isPrefixOf_iff_prefix.mp hpq).trans h

theorem startsWith_excl {s p q : String}
    (h : strStartsWith s q = true)
    (hpq : p.data.isPrefixOf q.data = false)
    (hqp : q.data.isPrefixOf p.data = false) :
    strStartsWith s p = false := by
  rw [Bool.eq_false_iff]
  intro hp
  rw [strStartsWith_eq_true] at h hp
  rcases List.prefix_or_prefix_of_prefix hp h with hh | hh
  · rw [← List.isPrefixOf_iff_prefix] at hh
    simp [hh] at hpq
  · rw [← List.isPrefixOf_iff_prefix] at hh
    simp [hh] at hqp

theorem ne_of_startsWith {s q : String} (h : strStartsWith s q = true) {t : String}
    (hqt : q.data.isPrefixOf t.data = false) : s ≠ t := by
  intro he
  subst he
  rw [strStartsWith_eq_true] at h
  rw [← List.isPrefixOf_iff_prefix] at h
  simp [h] at hqt

theorem lookup_updateRole_self (ps : List (String × Role)) (uid : String) (r : Role) :
    (updateRole ps uid r).lookup uid = (ps.lookup uid).map (fun _ => r) := by
  induction ps with
  | nil => rfl
  | cons p rest ih =>
    rcases p with ⟨a, b⟩
    simp only [updateRole, List.map_cons]
    by_cases h : a = uid
    · subst h
      rw [if_pos rfl]
      simp [List.lookup]
    · rw [if_neg h]
      simp only [List.lookup]
      rw [show (uid == a) = false by simp [Ne.symm h]]
      simpa [updateRole] using ih

theorem staffCountFor_append (a b : List StaffRow) (uid : String) :
    staffCountFor (a ++ b) uid = staffCountFor a uid + staffCountFor b uid := by
  simp [staffCountFor, List.filter_append]

theorem staffCountFor_eq_zero {st : List StaffRow} {uid : String}
    (h : st.any (fun r => r.id == uid) = false) : staffCountFor st uid = 0 := by
  simp only [List.any_eq_false] at h
  simp [staffCountFor, List.filter_eq_nil_iff.mpr h]

/- ===========================
   Claims
   =========================== -/

/-- C1: for an authenticated caller whose `profiles` role is one of the
four roles, `checkPermission(requiredRole)` returns `true` iff the caller's
role value is at least the required role's value under
`customer(0) < agent(1) < admin(2) < chief_admin(3)`; it returns `false`
when there is no authenticated user or no `profiles` row. -/
theorem claim_C1 (db : DB) (requiredRole : Role) :
    (∀ env : ActionEnv, env.authUser = none →
      checkPermission env db requiredRole = false) ∧
    (∀ (env : ActionEnv) (uid : String), env.authUser = some uid →
      lookupRole db uid = none → checkPermission env db requiredRole = false) ∧
    (∀ (env : ActionEnv) (uid : String) (r : Role), env.authUser = some uid →
      lookupRole db uid = some r →
      (checkPermission env db requiredRole = true ↔
        roleValue requiredRole ≤ roleValue r)) := by
  refine ⟨?_, ?_, ?_⟩
  · intro env h
    simp [checkPermission, h]
  · intro env uid h1 h2
    simp [checkPermission, h1, h2]
  · intro env uid r h1 h2
    simp [checkPermission, h1, h2]

theorem claim_C1_witness :
    checkPermission { authUser := some "u" }
      { profiles := [("u", Role.admin)], adminStaff := [], logs := [] }
      Role.agent = true ∧
    checkPermission { authUser := none }
      { profiles := [], adminStaff := [], logs := [] } Role.customer = false :=
  ⟨((claim_C1 _ Role.agent).2.2 _ "u" Role.admin rfl (by decide)).mpr (by decide),
   (claim_C1 _ Role.customer).1 _ rfl⟩

/-- C2: an authenticated user whose profile role is `agent` requesting any
path that starts with `/admin/audit-log` or `/admin/sales-log` is
redirected to `/admin/dashboard` by the middleware. -/
theorem claim_C2 (pathname uid : String) (profileRole : String → Option String)
    (hpath : strStartsWith pathname "/admin/audit-log" = true ∨
      strStartsWith pathname "/admin/sales-log" = true)
    (hrole : profileRole uid = some "agent") :
    middleware pathname (some uid) profileRole = MwResult.redirectAdminDashboard := by
  have hA : strStartsWith pathname "/admin" = true := by
    rcases hpath with h | h
    · exact startsWith_mono h (by decide)
    · exact startsWith_mono h (by decide)
  have hL : pathname ≠ "/admin/login" := by
    rcases hpath with h | h
    · exact ne_of_startsWith h (by decide)
    · exact ne_of_startsWith h (by decide)
  have hUsers : strStartsWith pathname "/admin/users" = false := by
    rcases hpath with h | h
    · exact startsWith_excl h (by decide) (by decide)
    · exact startsWith_excl h (by decide) (by decide)
  have hRoles : strStartsWith pathname "/admin/roles" = false := by
    rcases hpath with h | h
    · exact startsWith_excl h (by decide) (by decide)
    · exact startsWith_excl h (by decide) (by decide)
  have hAgents : strStartsWith pathname "/admin/agents" = false := by
    rcases hpath with h | h
    · exact startsWith_excl h (by decide) (by decide)
    · exact startsWith_excl h (by decide) (by decide)
  have hNoCAO : ¬ ((∃ r ∈ chiefAdminOnlyRoutes, strStartsWith pathname r = true) ∧
      ("agent" : String) ≠ "chief_admin") := by
    rintro ⟨⟨r, hr, hs⟩, -⟩
    simp only [chiefAdminOnlyRoutes, List.mem_cons, List.not_mem_nil, or_false] at hr
    rcases hr with rfl | rfl | rfl
    · rw [hs] at hUsers; cases hUsers
    · rw [hs] at hRoles; cases hRoles
    · rw [hs] at hAgents; cases hAgents
  have hAg : (∃ r ∈ agentRestrictedRoutes, strStartsWith pathname r = true) ∧
      ("agent" : String) = "agent" := by
    refine ⟨?_, rfl⟩
    rcases hpath with h | h
    · exact ⟨"/admin/audit-log", by simp [agentRestrictedRoutes], h⟩
    · exact ⟨"/admin/sales-log", by simp [agentRestrictedRoutes], h⟩
  unfold middleware
  rw [if_pos ⟨hA, hL⟩]
  simp only [hrole]
  rw [if_neg (by decide : ¬ (("agent" : String) ∉ allowedRoles))]
  rw [if_neg hNoCAO]
  rw [if_pos ⟨hAg.1, trivial⟩]

theorem claim_C2_witness :
    middleware "/admin/audit-log" (some "u") (fun _ => some "agent") =
      MwResult.redirectAdminDashboard :=
  claim_C2 "/admin/audit-log" "u" (fun _ => some "agent")
    (Or.inl (by decide)) rfl

/-- C5 counterexample: `/admin/login` is a path under `/admin`, yet with no
authenticated user the middleware passes the request through instead of
redirecting to a login page. -/
theorem claim_C5_counterexample :
    strStartsWith "/admin/login" "/admin" = true ∧
    middleware "/admin/login" none (fun _ => none) = MwResult.next := by
  constructor
  · decide
  · decide

/-- C5 (amended): every request to a path under `/admin` **other than
`/admin/login` itself** with no authenticated user is redirected to
`/admin/login`, and every request to a path starting with `/shop/history`,
`/shop/wishlist` or `/shop/checkout` with no authenticated user is
redirected to `/shop/auth` with the pathname as redirect parameter. -/
theorem claim_C5 (pathname : String) (profileRole : String → Option String) :
    (strStartsWith pathname "/admin" = true → pathname ≠ "/admin/login" →
      middleware pathname none profileRole = MwResult.redirectAdminLogin) ∧
    ((∃ p ∈ protectedCustomerRoutes, strStartsWith pathname p = true) →
      middleware pathname none profileRole = MwResult.redirectShopAuth pathname) := by
  constructor
  · intro h1 h2
    unfold middleware
    rw [if_pos ⟨h1, h2⟩]
  · rintro ⟨p, hp, hs⟩
    have hNadmin : strStartsWith pathname "/admin" = false := by
      simp only [protectedCustomerRoutes, List.mem_cons, List.not_mem_nil,
        or_false] at hp
      rcases hp with rfl | rfl | rfl
      · exact startsWith_excl hs (by decide) (by decide)
      · exact startsWith_excl hs (by decide) (by decide)
      · exact startsWith_excl hs (by decide) (by decide)
    unfold middleware
    rw [if_neg (by simp [hNadmin])]
    unfold customerRoutesCheck
    rw [if_pos ⟨p, by simpa [protectedCustomerRoutes] using hp, hs⟩]

theorem claim_C5_witness :
    middleware "/admin/dashboard" none (fun _ => none) =
      MwResult.redirectAdminLogin ∧
    middleware "/shop/checkout/step1" none (fun _ => none) =
      MwResult.redirectShopAuth "/shop/checkout/step1" :=
  ⟨(claim_C5 _ _).1 (by decide) (by decide),
   (claim_C5 _ _).2 ⟨"/shop/checkout", by decide, by decide⟩⟩

/-- C3: when a `chief_admin` promotes a user to a non-customer role (and
the profile update succeeds), the `admin_staff` table keeps at most one row
for the target; a duplicate insert fails with code `23505`, which
`promoteUser` swallows (leaving the table unchanged) and still reports
success; any other insert error yields `{ success := false }` carrying the
error's message. -/
theorem claim_C3 (env : ActionEnv) (db : DB) (targetUserId : String)
    (newRole : Role) (caller : String)
    (hauth : env.authUser = some caller)
    (hrole : lookupRole db caller = some Role.chief_admin)
    (hupd : env.profileUpdateFault = none)
    (hnew : newRole ≠ Role.customer)
    (huniq : staffCountFor db.adminStaff targetUserId ≤ 1) :
    staffCountFor (promoteUser env db targetUserId newRole).2.adminStaff
      targetUserId ≤ 1 ∧
    (env.staffInsertFault = none →
      (promoteUser env db targetUserId newRole).1.success = true) ∧
    (env.staffInsertFault = none →
      db.adminStaff.any (fun r => r.id == targetUserId) = true →
      (promoteUser env db targetUserId newRole).2.adminStaff = db.adminStaff) ∧
    (∀ e, env.staffInsertFault = some e → e.code ≠ "23505" →
      (promoteUser env db targetUserId newRole).1.success = false ∧
      (promoteUser env db targetUserId newRole).1.error = some e.message) ∧
    (∀ e, env.staffInsertFault = some e → e.code = "23505" →
      (promoteUser env db targetUserId newRole).1.success = true) := by
  refine ⟨?_, ?_, ?_, ?_, ?_⟩
  · simp only [promoteUser, hauth, hupd]
    rw [if_neg (by simp [hrole]), if_pos hnew]
    cases hf : env.staffInsertFault with
    | some e =>
      simp only [insertAdminStaff]
      split
      · simpa using huniq
      · simpa [finishPromote] using huniq
    | none =>
      simp only [insertAdminStaff, mkStaffRow]
      by_cases hdup : db.adminStaff.any (fun r => r.id == targetUserId) = true
      · simp only [hdup]
        simpa [finishPromote] using huniq
      · have hdf : db.adminStaff.any (fun r => r.id == targetUserId) = false :=
          Bool.eq_false_iff.mpr hdup
        simp only [hdf]
        simp [finishPromote, staffCountFor_append, staffCountFor_eq_zero hdf,
          staffCountFor]
        intro a ha
        simpa using List.any_eq_false.mp hdf a ha
  · intro hf
    simp only [promoteUser, hauth, hupd]
    rw [if_neg (by simp [hrole]), if_pos hnew]
    simp only [hf, insertAdminStaff, mkStaffRow]
    by_cases hdup : db.adminStaff.any (fun r => r.id == targetUserId) = true
    · simp [hdup, finishPromote]
    · have hdf : db.adminStaff.any (fun r => r.id == targetUserId) = false :=
        Bool.eq_false_iff.mpr hdup
      simp [hdf, finishPromote]
  · intro hf hdup
    simp only [promoteUser, hauth, hupd]
    rw [if_neg (by simp [hrole]), if_pos hnew]
    simp only [hf, insertAdminStaff, mkStaffRow]
    simp [hdup, finishPromote]
  · intro e he hc
    simp only [promoteUser, hauth, hupd]
    rw [if_neg (by simp [hrole]), if_pos hnew]
    simp only [he, insertAdminStaff]
    rw [if_pos hc]
    simp
  · intro e he hc
    simp only [promoteUser, hauth, hupd]
    rw [if_neg (by simp [hrole]), if_pos hnew]
    simp only [he, insertAdminStaff]
    rw [if_neg (by simp [hc])]
    simp [finishPromote]

theorem claim_C3_witness :
    staffCountFor (promoteUser { authUser := some "boss" }
      { profiles := [("boss", Role.chief_admin), ("t", Role.customer)],
        adminStaff := [{ id := "t", profile_id := "t", staff_id := "STAFF-0",
                         department := "Team", position := "Support Agent",
                         is_active := true }],
        logs := [] } "t" Role.agent).2.adminStaff "t" ≤ 1 ∧
    (promoteUser { authUser := some "boss" }
      { profiles := [("boss", Role.chief_admin), ("t", Role.customer)],
        adminStaff := [{ id := "t", profile_id := "t", staff_id := "STAFF-0",
                         department := "Team", position := "Support Agent",
                         is_active := true }],
        logs := [] } "t" Role.agent).1.success = true :=
  ⟨(claim_C3 _ _ "t" Role.agent "boss" rfl (by decide) rfl (by decide)
      (by decide)).1,
   (claim_C3 _ _ "t" Role.agent "boss" rfl (by decide) rfl (by decide)
      (by decide)).2.1 rfl⟩

/-- C4: a `chief_admin` caller demoting a user gets success, the target's
`profiles.role` becomes `customer`, and no `admin_staff` row for the target
survives; a caller of any other role (or no authenticated caller) gets
`{ success := false }` and the database is unchanged. -/
theorem claim_C4 (env : ActionEnv) (db : DB) (targetUserId caller : String) :
    (env.authUser = some caller → lookupRole db caller = some Role.chief_admin →
      env.profileUpdateFault = none →
      (demoteUser env db targetUserId).1.success = true ∧
      lookupRole (demoteUser env db targetUserId).2 targetUserId =
        (lookupRole db targetUserId).map (fun _ => Role.customer) ∧
      (∀ row ∈ (demoteUser env db targetUserId).2.adminStaff,
        row.id ≠ targetUserId)) ∧
    (∀ r : Role, env.authUser = some caller → lookupRole db caller = some r →
      r ≠ Role.chief_admin →
      demoteUser env db targetUserId =
        ({ success := false, error := some "Only chief admin can demote users" },
         db)) ∧
    (env.authUser = none →
      demoteUser env db targetUserId =
        ({ success := false, error := some "Not authenticated" }, db)) := by
  refine ⟨?_, ?_, ?_⟩
  · intro hauth hrole hupd
    simp only [demoteUser, hauth, hupd]
    rw [if_neg (by simp [hrole])]
    refine ⟨rfl, ?_, ?_⟩
    · simpa [lookupRole] using lookup_updateRole_self db.profiles targetUserId
        Role.customer
    · intro row hrow
      simp only [deleteStaff, List.mem_filter] at hrow
      simpa using hrow.2
  · intro r hauth hrole hne
    simp only [demoteUser, hauth]
    rw [if_pos (by simp [hrole, hne])]
  · intro hauth
    simp [demoteUser, hauth]

theorem claim_C4_witness :
    (demoteUser { authUser := some "boss" }
      { profiles := [("boss", Role.chief_admin), ("t", Role.agent)],
        adminStaff := [{ id := "t", profile_id := "t", staff_id := "STAFF-0",
                         department := "Team", position := "Support Agent",
                         is_active := true }],
        logs := [] } "t").1.success = true ∧
    demoteUser { authUser := some "x" }
      { profiles := [("x", Role.agent)], adminStaff := [], logs := [] } "t" =
      ({ success := false, error := some "Only chief admin can demote users" },
       { profiles := [("x", Role.agent)], adminStaff := [], logs := [] }) :=
  ⟨((claim_C4 _ _ "t" "boss").1 rfl (by decide) rfl).1,
   (claim_C4 _ _ "t" "x").2.1 Role.agent rfl (by decide) (by decide)⟩

/-- C6 (amended): a successful `uploadFileToFTP(file, folder)` returns
`baseUrl` (trailing slash removed) `++ "/" ++ folder ++ "/" ++ filename`,
where `filename` is the timestamp, a hyphen, the random string
`Math.random().toString(36).substring(2, 8)` — at most 6 characters, and
exactly 6 whenever the `toString(36)` rendering has at least 8 — a dot,
and the extension from the last dot-separated segment of `file.name` (or
`"file"` when that segment is empty). -/
theorem claim_C6 (env : FTPEnv) (fileName folder h u pw b : String)
    (hh : env.hostVar = some h) (hu : env.userVar = some u)
    (hpw : env.passwordVar = some pw) (hb : env.baseUrlVar = some b)
    (hne : ¬(h = "" ∨ u = "" ∨ pw = "" ∨ b = ""))
    (hconn : env.connectFault = none) (hput : env.putFault = none) :
    (uploadFileToFTP env fileName folder).1.success = true ∧
    (uploadFileToFTP env fileName folder).1.url =
      some (stripTrailingSlash b ++ "/" ++ folder ++ "/" ++
        (toString env.timestamp ++ "-" ++ jsSubstring env.randomRepr 2 8 ++
          "." ++ jsFileExt fileName)) ∧
    (uploadFileToFTP env fileName folder).1.filename =
      some (toString env.timestamp ++ "-" ++ jsSubstring env.randomRepr 2 8 ++
        "." ++ jsFileExt fileName) ∧
    (jsSubstring env.randomRepr 2 8).length ≤ 6 ∧
    (8 ≤ env.randomRepr.length → (jsSubstring env.randomRepr 2 8).length = 6) := by
  have hcfg : getFTPConfig env =
      some { host := h, port := jsParseInt (jsStrOr env.portVar "21"),
             user := u, password := pw, baseUrl := stripTrailingSlash b } := by
    simp [getFTPConfig, hh, hu, hpw, hb, hne]
  simp only [uploadFileToFTP, hcfg, hconn, hput]
  refine ⟨trivial, trivial, trivial, ?_, ?_⟩
  · show ((env.randomRepr.data.drop 2).take (8 - 2)).length ≤ 6
    simp [List.length_take]
  · intro hlen
    have hlen' : 8 ≤ env.randomRepr.data.length := hlen
    show ((env.randomRepr.data.drop 2).take (8 - 2)).length = 6
    simp [List.length_take, List.length_drop]
    omega

/-- C6 counterexample: for `Math.random() = 0.5` the rendering
`(0.5).toString(36)` is `"0.i"`, so `substring(2, 8)` is the 1-character
string `"i"`, not a 6-character random string: a successful upload then
produces the filename `0-i.jpg` (timestamp 0, extension `jpg`), which no
`{timestamp}-{6-character random}.{ext}` filename can equal. -/
theorem claim_C6_counterexample :
    (uploadFileToFTP
      { hostVar := some "h", userVar := some "u", passwordVar := some "p",
        baseUrlVar := some "http://cdn.example.com", timestamp := 0,
        randomRepr := "0.i" } "a.jpg" "products").1.success = true ∧
    (uploadFileToFTP
      { hostVar := some "h", userVar := some "u", passwordVar := some "p",
        baseUrlVar := some "http://cdn.example.com", timestamp := 0,
        randomRepr := "0.i" } "a.jpg" "products").1.filename =
      some "0-i.jpg" ∧
    (jsSubstring "0.i" 2 8).length = 1 ∧
    (∀ r : String, r.length = 6 → ("0-" ++ r ++ ".jpg" : String) ≠ "0-i.jpg") := by
  refine ⟨by decide, by decide, by decide, ?_⟩
  intro r hr he
  have hlen := congrArg String.length he
  rw [String.length_append, String.length_append, hr] at hlen
  exact absurd hlen (by decide)

theorem claim_C6_witness :
    (uploadFileToFTP
      { hostVar := some "h", portVar := some "21", userVar := some "u",
        passwordVar := some "p", baseUrlVar := some "http://cdn.example.com/",
        timestamp := 17, randomRepr := "0.abcdef12" }
      "pic.final.jpg" "products").1.url =
      some "http://cdn.example.com/products/17-abcdef.jpg" := by
  rw [(claim_C6 _ "pic.final.jpg" "products" "h" "u" "p" "http://cdn.example.com/"
      rfl rfl rfl rfl (by decide) rfl rfl).2.1]
  decide

/-- C8: the FTP helpers never return with the connection still open: after
the trace of client operations of any `uploadFileToFTP` or
`deleteFileFromFTP` call, the connection state is closed (`client.end()`
runs in the `finally` block on every path on which the connect
succeeded). -/
theorem claim_C8 :
    (∀ (env : FTPEnv) (fileName folder : String),
      connOpenAfter (uploadFileToFTP env fileName folder).2 = false) ∧
    (∀ (env : FTPEnv) (filename folder : String),
      connOpenAfter (deleteFileFromFTP env filename folder).2 = false) := by
  constructor
  · intro env fileName folder
    simp only [uploadFileToFTP]
    split
    · rfl
    · split
      · rfl
      · split
        · simp [connOpenAfter, List.foldl_append, connStep]
        · simp [connOpenAfter, List.foldl_append, connStep]
  · intro env filename folder
    simp only [deleteFileFromFTP]
    split
    · rfl
    · split
      · rfl
      · split
        · rfl
        · rfl

/-- C9: `getSalesStats(period)` ignores its period argument — the computed
`dateFilter` is never applied to the query — so any two periods give
identical results, and the result always covers exactly the orders with
`payment_status = "completed"`. -/
theorem claim_C9 (env : StatsEnv) (dbOrders : List OrderRow) :
    (∀ p q : Period, getSalesStats env dbOrders p = getSalesStats env dbOrders q) ∧
    (env.queryFault = none → ∀ p : Period,
      getSalesStats env dbOrders p =
        { success := true
          data := some
            { totalRevenue :=
                (dbOrders.filter (fun o => o.payment_status == "completed")).foldl
                  (fun sum o => sum + o.total_amount) 0
              totalOrders :=
                (dbOrders.filter (fun o => o.payment_status == "completed")).length
              completedOrders :=
                ((dbOrders.filter (fun o => o.payment_status == "completed")).filter
                  (fun o => o.status == "delivered")).length
              orders := dbOrders.filter (fun o => o.payment_status == "completed") } }) := by
  constructor
  · intro p q
    simp only [getSalesStats]
  · intro hf p
    simp [getSalesStats, hf]

theorem claim_C9_witness :
    getSalesStats {}
      [{ total_amount := 5, status := "delivered", payment_status := "completed",
         created_at := 0 }] Period.day =
      getSalesStats {}
        [{ total_amount := 5, status := "delivered", payment_status := "completed",
           created_at := 0 }] Period.all ∧
    getSalesStats {}
      [{ total_amount := 5, status := "delivered", payment_status := "completed",
         created_at := 0 }] Period.week =
      { success := true
        data := some { totalRevenue := 5, totalOrders := 1, completedOrders := 1,
                       orders := [{ total_amount := 5, status := "delivered",
                                    payment_status := "completed",
                                    created_at := 0 }] } } := by
  constructor
  · exact (claim_C9 _ _).1 Period.day Period.all
  · rw [(claim_C9 _ _).2 rfl Period.week]
    decide

/-- C10: the `CartOverlay` total equals the sum over the cart of
(discount price if set and non-zero, else price, else 0) times quantity;
a product with `discount_price = 0` is charged at full price, and a
missing product contributes 0. -/
theorem claim_C10 (cart : List CartItem) :
    cartTotalPrice cart =
      (cart.map (fun item => claimedItemPrice item * item.quantity)).sum ∧
    (∀ (item : CartItem) (p : Product), item.product = some p →
      p.discount_price = some 0 → cartItemPrice item = p.price) ∧
    (∀ item : CartItem, item.product = none → cartItemPrice item = 0) := by
  have hpt : ∀ item : CartItem, cartItemPrice item = claimedItemPrice item := by
    intro item
    rcases hp : item.product with _ | p
    · simp [cartItemPrice, claimedItemPrice, hp, jsNumOr]
    · rcases hd : p.discount_price with _ | d
      · by_cases hz : p.price = 0 <;>
          simp [cartItemPrice, claimedItemPrice, hp, hd, jsNumOr, hz]
      · by_cases hdz : d = 0
        · subst hdz
          by_cases hz : p.price = 0 <;>
            simp [cartItemPrice, claimedItemPrice, hp, hd, jsNumOr, hz]
        · simp [cartItemPrice, claimedItemPrice, hp, hd, jsNumOr, hdz]
  refine ⟨?_, ?_, ?_⟩
  · have hfold : ∀ (l : List CartItem) (acc : Int),
        l.foldl (fun a item => a + cartItemPrice item * item.quantity) acc =
          acc + (l.map (fun item => claimedItemPrice item * item.quantity)).sum := by
      intro l
      induction l with
      | nil => intro acc; simp
      | cons x xs ih =>
        intro acc
        simp only [List.foldl_cons, List.map_cons, List.sum_cons, ih, hpt x]
        ring
    simpa [cartTotalPrice] using hfold cart 0
  · intro item p hp hd
    simp [cartItemPrice, hp, hd, jsNumOr]
    by_cases hz : p.price = 0 <;> simp [hz]
  · intro item hp
    simp [cartItemPrice, hp, jsNumOr]

theorem claim_C10_witness :
    cartItemPrice { id := "i", product_id := "p", quantity := 2,
                    product := some { name := "soap", price := 100,
                                      discount_price := some 0,
                                      images := [] } } = 100 ∧
    cartItemPrice { id := "j", product_id := "q", quantity := 1,
                    product := none } = 0 :=
  ⟨(claim_C10 []).2.1 _ _ rfl rfl, (claim_C10 []).2.2 _ rfl⟩

end JRadiance
